import Mathlib

/-!
# Verification of the sudoku-verifier repository

A shallow embedding, in Lean 4, of the sudoku verification library
(`src/lib/src/lib.rs`) and of the request-handling pipeline
(`src/script/src/bin/main.rs`, `src/script/src/bin/evm.rs`) of the
repository, together with theorems settling the specified properties.

Grids (`[[u8; 9]; 9]` in the source) are embedded as functions
`Fin 9 → Fin 9 → Nat`; cell values are natural numbers (no arithmetic in
the source can overflow a `u8`, every operation on cells is a comparison,
so `Nat` is a faithful carrier).  Fallible operations are embedded with
`Except`; an abrupt failure (Rust panic) of the external proving backend
is embedded as an explicit outcome value, mirroring the
`std::panic::catch_unwind` boundary in the source.
-/

namespace Sudoku

/-- `SUDOKU_SIZE` from `src/lib/src/lib.rs`. -/
def SUDOKU_SIZE : Nat := 9

/-- `GRID_SIZE` from `src/lib/src/lib.rs` (side of a sub-block). -/
def GRID_SIZE : Nat := 3

/-- A 9×9 grid of cell values, embedding `[[u8; SUDOKU_SIZE]; SUDOKU_SIZE]`. -/
def Grid : Type := Fin 9 → Fin 9 → Nat

/-- Build a grid from a row-major list of rows (missing entries default
to 0); used only to write concrete grids. -/
def gridOfLists (rows : List (List Nat)) : Grid :=
  fun i j => ((rows.getD i.val []).getD j.val 0)

/-- The body of each scan loop of `is_valid_solution`: walk the cells of
one row / column / sub-block in order with a `used` table (the
`used: [bool; SUDOKU_SIZE + 1]` array of the source, embedded as a
function), returning `false` as soon as a cell is `0`, exceeds 9, or
repeats a value already seen. -/
def checkCells : List Nat → (Nat → Bool) → Bool
  | [], _ => true
  | n :: rest, used =>
    if n = 0 || 9 < n || used n then false
    else checkCells rest (fun m => if m = n then true else used m)

/-- The cells of row `i` of a grid, in column order. -/
def rowList (g : Grid) (i : Fin 9) : List Nat :=
  (List.finRange 9).map (fun j => g i j)

/-- The cells of column `j` of a grid, in row order. -/
def colList (g : Grid) (j : Fin 9) : List Nat :=
  (List.finRange 9).map (fun i => g i j)

/-- The cell `(box_row * GRID_SIZE + row, box_col * GRID_SIZE + col)`
of the source's sub-block scan, as an index pair. -/
def blockIdx (b r : Fin 3) : Fin 9 :=
  ⟨b.val * 3 + r.val, by have := b.isLt; have := r.isLt; omega⟩

/-- The cells of the sub-block at block coordinates `(br, bc)`, in the
row-major order the source scans them. -/
def blockList (g : Grid) (br bc : Fin 3) : List Nat :=
  (List.finRange 3).flatMap (fun r =>
    (List.finRange 3).map (fun c => g (blockIdx br r) (blockIdx bc c)))

/-- `is_valid_solution` from `src/lib/src/lib.rs`: every row, every
column and every 3×3 sub-block passes the duplicate/range scan. -/
def is_valid_solution (solution : Grid) : Bool :=
  ((List.finRange 9).all fun row =>
      checkCells (rowList solution row) (fun _ => false)) &&
  ((List.finRange 9).all fun col =>
      checkCells (colList solution col) (fun _ => false)) &&
  ((List.finRange 3).all fun box_row =>
      (List.finRange 3).all fun box_col =>
        checkCells (blockList solution box_row box_col) (fun _ => false))

/-- `check_board_solution_consistency` from `src/lib/src/lib.rs`: every
non-zero board cell must equal the solution cell at the same position. -/
def check_board_solution_consistency (board solution : Grid) : Bool :=
  (List.finRange 9).all fun i =>
    (List.finRange 9).all fun j =>
      !(board i j != 0 && board i j != solution i j)

/-- `verify_sudoku` from `src/lib/src/lib.rs`. -/
def verify_sudoku (board solution : Grid) : Bool :=
  if !(check_board_solution_consistency board solution) then false
  else if !(is_valid_solution solution) then false
  else true

/-- The list `[1, 2, ..., 9]` of required values. -/
def oneToNine : List Nat := [1, 2, 3, 4, 5, 6, 7, 8, 9]

/-- Specification-side predicate: the board's clues (non-zero cells)
agree with the solution. -/
def SpecConsistent (board solution : Grid) : Prop :=
  ∀ i j, board i j ≠ 0 → board i j = solution i j

/-- Specification-side predicate: every row, column and sub-block of the
solution is a permutation of `1..=9`. -/
def SpecValidSolution (solution : Grid) : Prop :=
  (∀ i, (rowList solution i).Perm oneToNine) ∧
  (∀ j, (colList solution j).Perm oneToNine) ∧
  (∀ br bc, (blockList solution br bc).Perm oneToNine)

end Sudoku

namespace Sudoku

/-- Scan invariant of `checkCells`: the loop accepts exactly the lists
that are duplicate-free, in range `1..=9`, and avoid the values already
marked in `used`. -/
theorem checkCells_iff (cells : List Nat) (used : Nat → Bool) :
    checkCells cells used = true ↔
      cells.Nodup ∧ ∀ n ∈ cells, n ≠ 0 ∧ n ≤ 9 ∧ used n = false := by
  induction cells generalizing used with
  | nil => simp [checkCells]
  | cons n rest ih =>
    rw [checkCells]
    split_ifs with h
    · simp only [Bool.or_eq_true, decide_eq_true_eq] at h
      constructor
      · intro hfalse; cases hfalse
      · rintro ⟨-, hall⟩
        rcases hall n (List.mem_cons_self n rest) with ⟨h0, h9, hu⟩
        rcases h with (h | h) | h
        · exact absurd h h0
        · omega
        · rw [h] at hu; cases hu
    · rw [ih]
      simp only [Bool.or_eq_true, decide_eq_true_eq, not_or,
        Bool.not_eq_true] at h
      obtain ⟨⟨h0, h9⟩, hu⟩ := h
      constructor
      · rintro ⟨hnd, hall⟩
        have hnm : n ∉ rest := by
          intro hmem
          have := (hall n hmem).2.2
          simp at this
        refine ⟨List.nodup_cons.mpr ⟨hnm, hnd⟩, ?_⟩
        intro m hm
        rcases List.mem_cons.mp hm with rfl | hm'
        · exact ⟨h0, by omega, hu⟩
        · obtain ⟨m0, m9, mu⟩ := hall m hm'
          have hne : m ≠ n := by
            intro hEq; rw [hEq] at mu; simp at mu
          exact ⟨m0, m9, by rwa [if_neg hne] at mu⟩
      · rintro ⟨hnd, hall⟩
        obtain ⟨hnm, hrest⟩ := List.nodup_cons.mp hnd
        refine ⟨hrest, ?_⟩
        intro m hm
        obtain ⟨m0, m9, mu⟩ := hall m (List.mem_cons_of_mem n hm)
        have hne : m ≠ n := fun hEq => hnm (hEq ▸ hm)
        exact ⟨m0, m9, by rw [if_neg hne]; exact mu⟩

/-- Membership in `[1, ..., 9]` is exactly the range condition the scan
enforces. -/
theorem mem_oneToNine (n : Nat) : n ∈ oneToNine ↔ n ≠ 0 ∧ n ≤ 9 := by
  simp only [oneToNine, List.mem_cons, List.not_mem_nil, or_false]
  omega

/-- A list of nine cells passes the scan from an empty `used` table iff
it is a permutation of `1..=9`. -/
theorem checkCells_perm (cells : List Nat) (hlen : cells.length = 9) :
    checkCells cells (fun _ => false) = true ↔ cells.Perm oneToNine := by
  rw [checkCells_iff]
  constructor
  · rintro ⟨hnd, hall⟩
    have hsub : cells ⊆ oneToNine := by
      intro n hn
      rcases hall n hn with ⟨h0, h9, -⟩
      exact (mem_oneToNine n).mpr ⟨h0, h9⟩
    refine (hnd.subperm hsub).perm_of_length_le ?_
    simp [oneToNine, hlen]
  · intro hperm
    refine ⟨hperm.nodup_iff.mpr (by decide), ?_⟩
    intro n hn
    have := (mem_oneToNine n).mp (hperm.subset hn)
    exact ⟨this.1, this.2, rfl⟩

theorem length_rowList (g : Grid) (i : Fin 9) : (rowList g i).length = 9 := by
  simp [rowList]

theorem length_colList (g : Grid) (j : Fin 9) : (colList g j).length = 9 := by
  simp [colList]

theorem length_blockList (g : Grid) (br bc : Fin 3) :
    (blockList g br bc).length = 9 := by
  simp [blockList, List.length_flatMap]
  rfl

/-- The validity scan accepts exactly the grids whose rows, columns and
sub-blocks are permutations of `1..=9`. -/
theorem is_valid_solution_iff (s : Grid) :
    is_valid_solution s = true ↔ SpecValidSolution s := by
  simp only [is_valid_solution, Bool.and_eq_true, List.all_eq_true,
    SpecValidSolution]
  constructor
  · rintro ⟨⟨hr, hc⟩, hb⟩
    refine ⟨fun i => ?_, fun j => ?_, fun br bc => ?_⟩
    · exact (checkCells_perm _ (length_rowList s i)).mp (hr i (List.mem_finRange i))
    · exact (checkCells_perm _ (length_colList s j)).mp (hc j (List.mem_finRange j))
    · exact (checkCells_perm _ (length_blockList s br bc)).mp
        (hb br (List.mem_finRange br) bc (List.mem_finRange bc))
  · rintro ⟨hr, hc, hb⟩
    refine ⟨⟨fun i _ => ?_, fun j _ => ?_⟩, fun br _ bc _ => ?_⟩
    · exact (checkCells_perm _ (length_rowList s i)).mpr (hr i)
    · exact (checkCells_perm _ (length_colList s j)).mpr (hc j)
    · exact (checkCells_perm _ (length_blockList s br bc)).mpr (hb br bc)

/-- The consistency loop accepts exactly the pairs whose non-zero board
cells agree with the solution. -/
theorem consistency_iff (b s : Grid) :
    check_board_solution_consistency b s = true ↔ SpecConsistent b s := by
  simp only [check_board_solution_consistency, List.all_eq_true,
    SpecConsistent, Bool.not_eq_true', Bool.and_eq_false_iff, bne,
    Bool.not_eq_false', beq_iff_eq]
  constructor
  · intro h i j hne
    rcases h i (List.mem_finRange i) j (List.mem_finRange j) with h' | h'
    · exact absurd h' hne
    · exact h'
  · intro h i _ j _
    by_cases hz : b i j = 0
    · exact Or.inl hz
    · exact Or.inr (h i j hz)

end Sudoku

namespace Sudoku

/-- A completed sudoku grid, used as a concrete test vector. -/
def validSol : Grid := gridOfLists [
  [1, 2, 3, 4, 5, 6, 7, 8, 9],
  [4, 5, 6, 7, 8, 9, 1, 2, 3],
  [7, 8, 9, 1, 2, 3, 4, 5, 6],
  [2, 3, 4, 5, 6, 7, 8, 9, 1],
  [5, 6, 7, 8, 9, 1, 2, 3, 4],
  [8, 9, 1, 2, 3, 4, 5, 6, 7],
  [3, 4, 5, 6, 7, 8, 9, 1, 2],
  [6, 7, 8, 9, 1, 2, 3, 4, 5],
  [9, 1, 2, 3, 4, 5, 6, 7, 8]]

/-- The all-zero grid (an empty puzzle). -/
def zeroGrid : Grid := fun _ _ => 0

/-- A grid whose every cell holds the out-of-range value 15. -/
def grid15 : Grid := fun _ _ => 15

/-- A puzzle with the single clue 5 at position (0, 0). -/
def clue5Board : Grid := gridOfLists [[5]]

/-- C1: `verify_sudoku board solution` returns `true` iff every row,
every column and every one of the nine 3×3 sub-blocks of the solution is
a permutation of `1..=9`, and every non-zero cell of the board equals
the corresponding cell of the solution. -/
theorem verify_sudoku_iff_spec (b s : Grid) :
    verify_sudoku b s = true ↔ SpecConsistent b s ∧ SpecValidSolution s := by
  rw [← consistency_iff, ← is_valid_solution_iff]
  cases hc : check_board_solution_consistency b s <;>
    cases hv : is_valid_solution s <;>
      simp [verify_sudoku, hc, hv]

/-- Witness for C1 at a concrete accepted pair: the empty puzzle with a
completed grid satisfies both specification predicates. -/
theorem verify_sudoku_iff_spec_witness :
    SpecConsistent zeroGrid validSol ∧ SpecValidSolution validSol :=
  (verify_sudoku_iff_spec zeroGrid validSol).mp (by decide)

/-- C2: a non-zero board cell that differs from the matching solution
cell forces `verify_sudoku` to return `false`, regardless of the
solution's validity. -/
theorem consistency_violation_verify_false (b s : Grid) (i j : Fin 9)
    (h0 : b i j ≠ 0) (hne : b i j ≠ s i j) :
    verify_sudoku b s = false := by
  have hc : check_board_solution_consistency b s ≠ true := fun h =>
    hne ((consistency_iff b s).mp h i j h0)
  have hc2 : check_board_solution_consistency b s = false := by
    cases h : check_board_solution_consistency b s
    · rfl
    · exact absurd h hc
  simp [verify_sudoku, hc2]

/-- Witness for C2: clue 5 at (0, 0) against a completed grid holding 1
there is rejected. -/
theorem consistency_violation_verify_false_witness :
    verify_sudoku clue5Board validSol = false :=
  consistency_violation_verify_false clue5Board validSol 0 0
    (by decide) (by decide)

/-- C8: out-of-range values are caught only by the validity check: any
solution cell above 9 makes `verify_sudoku` return `false`, while the
consistency check accepts every pair whose non-zero board cells equal
the matching solution cells, even when those values exceed 9. -/
theorem range_check_location (b s b' s' : Grid) (i j : Fin 9)
    (hgt : 9 < s i j) (hcons : ∀ p q, b' p q ≠ 0 → b' p q = s' p q) :
    verify_sudoku b s = false ∧
      check_board_solution_consistency b' s' = true := by
  refine ⟨?_, (consistency_iff b' s').mpr hcons⟩
  have hv : is_valid_solution s ≠ true := by
    intro h
    have hperm := ((is_valid_solution_iff s).mp h).1 i
    have hmem : s i j ∈ rowList s i :=
      List.mem_map.mpr ⟨j, List.mem_finRange j, rfl⟩
    have := (mem_oneToNine _).mp (hperm.subset hmem)
    omega
  have hv2 : is_valid_solution s = false := by
    cases h : is_valid_solution s
    · rfl
    · exact absurd h hv
  simp [verify_sudoku, hv2]

/-- Witness for C8: a solution full of 15s is rejected, while the
consistency check accepts the pair (all-15 board, all-15 solution). -/
theorem range_check_location_witness :
    verify_sudoku zeroGrid grid15 = false ∧
      check_board_solution_consistency grid15 grid15 = true :=
  range_check_location zeroGrid grid15 grid15 grid15 0 0
    (by decide) (by decide)

/-- C9: removing clues preserves acceptance: if `verify_sudoku b s` is
`true` and every non-zero cell of `b'` equals the matching cell of `b`,
then `verify_sudoku b' s` is `true`. -/
theorem clue_removal_preserves_verify (b b' s : Grid)
    (hv : verify_sudoku b s = true)
    (hsub : ∀ i j, b' i j ≠ 0 → b' i j = b i j) :
    verify_sudoku b' s = true := by
  have hc : check_board_solution_consistency b s = true := by
    by_contra h
    rw [Bool.not_eq_true] at h
    simp [verify_sudoku, h] at hv
  have hval : is_valid_solution s = true := by
    by_contra h
    rw [Bool.not_eq_true] at h
    simp [verify_sudoku, h] at hv
  have hcons := (consistency_iff b s).mp hc
  have hc' : check_board_solution_consistency b' s = true :=
    (consistency_iff b' s).mpr (fun i j hne => by
      have hb : b' i j = b i j := hsub i j hne
      rw [hb]
      exact hcons i j (fun h0 => hne (hb.trans h0)))
  simp [verify_sudoku, hc', hval]

/-- Witness for C9: erasing every clue of a full board keeps the same
solution accepted. -/
theorem clue_removal_preserves_verify_witness :
    verify_sudoku zeroGrid validSol = true :=
  clue_removal_preserves_verify validSol zeroGrid validSol
    (by decide) (by decide)

end Sudoku

namespace Sudoku

/-- Outcome of one run of the SP1 prover closure (`client.prove(..).run()`
together with the surrounding setup code): it returns proof bytes,
returns an ordinary error, or fails abruptly (a Rust panic).  The abrupt
case embeds the non-local exit caught by `std::panic::catch_unwind` in
`generate_network_proof` as an explicit value. -/
inductive ProveOutcome where
  | ok (proofBytes : List Nat)
  | err (msg : String)
  | panicked
deriving DecidableEq

/-- `SudokuResponse` from `src/script/src/bin/main.rs`. -/
structure SudokuResponse where
  is_valid : Bool
  proof_generated : Bool
  job_id : Option String
  network_used : Bool
deriving DecidableEq

/-- The environment and external-world data one request observes:
the `SP1_PROVER` and `NETWORK_PRIVATE_KEY` variables, the outcome the
network prover closure would produce if invoked, the outcomes of the
local prover's `prove` and `verify` calls, and the current Unix time
used for the job id. -/
structure Env where
  sp1Prover : Option String
  networkKey : Option String
  networkOutcome : ProveOutcome
  localProveOutcome : Except String (List Nat)
  localVerifyOutcome : Except String Unit
  now : Nat

/-- `generate_network_proof` from `src/script/src/bin/main.rs`.  The
credential is read from `NETWORK_PRIVATE_KEY` (`none` when unset); the
body of the `catch_unwind` block is summarised by `outcome`, whose
`panicked` case is what `Err(_)` from `catch_unwind` receives. -/
def generate_network_proof (_board _solution : Grid) (networkKey : Option String)
    (outcome : ProveOutcome) (now : Nat) :
    Except String (List Nat × String) :=
  match networkKey with
  | none => .error "Please set your NETWORK_PRIVATE_KEY environment variable"
  | some private_key =>
    if private_key = "YOUR_PRIVATE_KEY_HERE" ∨ private_key = "" then
      .error "Please set a valid NETWORK_PRIVATE_KEY environment variable"
    else
      -- the three cases of `match result` on the catch_unwind value
      match outcome with
      | .ok proof => .ok (proof, "net_proof_" ++ toString now)
      | .err e => .error ("Failed to generate network proof: " ++ e)
      | .panicked =>
          .error "Network proof generation panicked - this usually indicates authentication or network issues"

/-- `generate_local_proof` from `src/script/src/bin/main.rs`: the local
prover's `prove` then `verify` calls, each mapped onto an error string on
ordinary failure. -/
def generate_local_proof (_board _solution : Grid)
    (proveOutcome : Except String (List Nat))
    (verifyOutcome : Except String Unit) : Except String (List Nat) :=
  match proveOutcome with
  | .error e => .error ("Failed to generate local proof: " ++ e)
  | .ok proof =>
    match verifyOutcome with
    | .error e => .error ("Failed to verify local proof: " ++ e)
    | .ok _ => .ok proof

/-- `validate_sudoku` from `src/script/src/bin/main.rs`: the request
handler body after JSON decoding.  Runs `verify_sudoku`; if valid,
selects the backend from `SP1_PROVER` (default `"local"`), invokes it,
and fills the response flags exactly as the source's mutable
`proof_generated` / `job_id` / `network_used` variables end up. -/
def validate_sudoku (board solution : Grid) (env : Env) : SudokuResponse :=
  let is_valid := verify_sudoku board solution
  if is_valid then
    let use_network := (env.sp1Prover.getD "local") == "network"
    if use_network then
      match generate_network_proof board solution env.networkKey
          env.networkOutcome env.now with
      | .ok (_proof, job_id_str) =>
        { is_valid := is_valid, proof_generated := true,
          job_id := some job_id_str, network_used := true }
      | .error _ =>
        { is_valid := is_valid, proof_generated := false,
          job_id := none, network_used := false }
    else
      match generate_local_proof board solution env.localProveOutcome
          env.localVerifyOutcome with
      | .ok _ =>
        { is_valid := is_valid, proof_generated := true,
          job_id := none, network_used := false }
      | .error _ =>
        { is_valid := is_valid, proof_generated := false,
          job_id := none, network_used := false }
  else
    { is_valid := is_valid, proof_generated := false,
      job_id := none, network_used := false }

/-- Modelled from the spec: the shape a JSON grid must have to
deserialize as `[[u8; SUDOKU_SIZE]; SUDOKU_SIZE]`: a 9-element array of
9-element rows whose values fit in a `u8` (`0..=255`). -/
def GoodShape (raw : List (List Nat)) : Prop :=
  raw.length = 9 ∧ ∀ row ∈ raw, row.length = 9 ∧ ∀ v ∈ row, v ≤ 255

instance (raw : List (List Nat)) : Decidable (GoodShape raw) := by
  unfold GoodShape
  infer_instance

/-- Modelled from the spec: the JSON deserialization of one grid field of
`SudokuRequest` (performed by the serde/axum layer, outside `src/`):
it succeeds exactly on a well-shaped array, and any other shape is a
request rejection. -/
def decodeGrid (raw : List (List Nat)) : Option Grid :=
  if GoodShape raw then
    some (gridOfLists raw)
  else
    none

/-- The request pipeline: decode both grids of the JSON body, and only
when both decode does the handler `validate_sudoku` run; a shape
failure is a request rejection (`none`), produced before the validator
or any prover is consulted. -/
def handle_request (rawBoard rawSolution : List (List Nat)) (env : Env) :
    Option SudokuResponse :=
  match decodeGrid rawBoard, decodeGrid rawSolution with
  | some board, some solution => some (validate_sudoku board solution env)
  | _, _ => none

/-- Modelled from the spec: the ABI encoding of `PublicValuesStruct`
(`struct { bool is_valid }` in `src/lib/src/lib.rs`, encoded by the
external `alloy_sol_types` crate): one 32-byte big-endian word holding
0 or 1 in its last byte. -/
def encodePublicValues (is_valid : Bool) : List Nat :=
  List.replicate 31 0 ++ [if is_valid then 1 else 0]

/-- The decoding in `create_proof_fixture` of `src/script/src/bin/evm.rs`:
`bytes.len() > 0 && bytes[bytes.len() - 1] == 1`. -/
def decodePublicValues (bytes : List Nat) : Bool :=
  decide (bytes.length > 0) && (bytes.getLastD 0 == 1)

end Sudoku

namespace Sudoku

/-- Concrete environment: network backend selected, valid credential,
network prover succeeds. -/
def netSuccessEnv : Env :=
  { sp1Prover := some "network", networkKey := some "0xabc",
    networkOutcome := .ok [1, 2, 3], localProveOutcome := .ok [1],
    localVerifyOutcome := .ok (), now := 5 }

/-- Concrete environment: network backend selected, valid credential,
network prover panics. -/
def panicEnv : Env :=
  { sp1Prover := some "network", networkKey := some "0xabc",
    networkOutcome := .panicked, localProveOutcome := .ok [1],
    localVerifyOutcome := .ok (), now := 5 }

/-- C3: an abrupt failure (panic) of the network prover closure is
caught by the `catch_unwind` boundary and surfaced as an ordinary
`Err` value — `generate_network_proof` returns `Except.error` (it is a
total function, so nothing propagates) — and the handler's response
reports `proof_generated = false` with no job id. -/
theorem network_panic_isolated (b s : Grid) (env : Env)
    (hnet : env.sp1Prover = some "network")
    (hpanic : env.networkOutcome = ProveOutcome.panicked) :
    (∃ e, generate_network_proof b s env.networkKey env.networkOutcome
        env.now = Except.error e) ∧
    (validate_sudoku b s env).proof_generated = false ∧
    (validate_sudoku b s env).job_id = none := by
  have he : ∃ e, generate_network_proof b s env.networkKey
      ProveOutcome.panicked env.now = Except.error e := by
    cases hkey : env.networkKey with
    | none => exact ⟨_, rfl⟩
    | some k =>
      by_cases hk : k = "YOUR_PRIVATE_KEY_HERE" ∨ k = ""
      · refine ⟨"Please set a valid NETWORK_PRIVATE_KEY environment variable", ?_⟩
        simp only [generate_network_proof]
        rw [if_pos hk]
      · refine ⟨"Network proof generation panicked - this usually indicates authentication or network issues", ?_⟩
        simp only [generate_network_proof]
        rw [if_neg hk]
  rw [← hpanic] at he
  obtain ⟨e, hee⟩ := he
  refine ⟨⟨e, hee⟩, ?_⟩
  cases hval : verify_sudoku b s
  · simp [validate_sudoku, hval]
  · simp [validate_sudoku, hval, hnet, hee]

/-- Witness for C3 at a concrete panicking environment. -/
theorem network_panic_isolated_witness :
    (∃ e, generate_network_proof zeroGrid validSol panicEnv.networkKey
        panicEnv.networkOutcome panicEnv.now = Except.error e) ∧
    (validate_sudoku zeroGrid validSol panicEnv).proof_generated = false ∧
    (validate_sudoku zeroGrid validSol panicEnv).job_id = none :=
  network_panic_isolated zeroGrid validSol panicEnv rfl rfl

/-- C4: with a missing, empty or placeholder `NETWORK_PRIVATE_KEY`,
`generate_network_proof` fails with the descriptive error message of the
source, whatever the prover would have done — the result does not
depend on `outcome`, which formalises that the prover is never
invoked. -/
theorem invalid_credential_fails_fast (b s : Grid) (key : Option String)
    (hbad : key = none ∨ key = some "" ∨ key = some "YOUR_PRIVATE_KEY_HERE")
    (outcome : ProveOutcome) (now : Nat) :
    generate_network_proof b s key outcome now =
      Except.error (if key = none
        then "Please set your NETWORK_PRIVATE_KEY environment variable"
        else "Please set a valid NETWORK_PRIVATE_KEY environment variable") := by
  rcases hbad with rfl | rfl | rfl
  · rfl
  · simp [generate_network_proof]
  · simp [generate_network_proof]

/-- Witness for C4: unset credential with a prover that would panic. -/
theorem invalid_credential_fails_fast_witness :
    generate_network_proof zeroGrid validSol none ProveOutcome.panicked 0 =
      Except.error "Please set your NETWORK_PRIVATE_KEY environment variable" := by
  have h := invalid_credential_fails_fast zeroGrid validSol none
    (Or.inl rfl) ProveOutcome.panicked 0
  simpa using h

/-- C5: a request whose board or solution is not a well-shaped 9×9 array
of `u8` values is rejected at decoding (`none`), for every environment —
neither the validator nor any prover outcome can influence the result. -/
theorem invalid_shape_rejected (rawBoard rawSolution : List (List Nat))
    (env : Env) (hbad : ¬GoodShape rawBoard ∨ ¬GoodShape rawSolution) :
    handle_request rawBoard rawSolution env = none := by
  rcases hbad with h | h
  · have hb : decodeGrid rawBoard = none := by rw [decodeGrid, if_neg h]
    rw [handle_request, hb]
  · have hs : decodeGrid rawSolution = none := by rw [decodeGrid, if_neg h]
    rw [handle_request, hs]
    cases decodeGrid rawBoard <;> rfl

/-- Witness for C5: a 1×3 board is rejected. -/
theorem invalid_shape_rejected_witness :
    handle_request [[1, 2, 3]] [] netSuccessEnv = none :=
  invalid_shape_rejected [[1, 2, 3]] [] netSuccessEnv (Or.inl (by decide))

/-- C6: when `verify_sudoku` returns `false`, the handler's response is
exactly `is_valid = false`, `proof_generated = false`, `job_id = none`,
`network_used = false`, for every environment — in particular for
environments whose provers would succeed, so no proof generation is
attempted. -/
theorem invalid_pair_no_proof_attempt (b s : Grid) (env : Env)
    (h : verify_sudoku b s = false) :
    validate_sudoku b s env =
      { is_valid := false, proof_generated := false,
        job_id := none, network_used := false } := by
  simp [validate_sudoku, h]

/-- Witness for C6: an all-zero pair under an environment whose network
prover would succeed. -/
theorem invalid_pair_no_proof_attempt_witness :
    validate_sudoku zeroGrid zeroGrid netSuccessEnv =
      { is_valid := false, proof_generated := false,
        job_id := none, network_used := false } :=
  invalid_pair_no_proof_attempt zeroGrid zeroGrid netSuccessEnv (by decide)

/-- C7: the public-output codec round-trips the validity boolean —
`decodePublicValues` (the byte inspection of `create_proof_fixture`)
inverts `encodePublicValues` on both booleans, and the two encodings
differ. -/
theorem decode_encode_inverse :
    (∀ v : Bool, decodePublicValues (encodePublicValues v) = v) ∧
      encodePublicValues true ≠ encodePublicValues false := by
  refine ⟨fun v => ?_, by decide⟩
  cases v <;> rfl

/-- C10: in every response the handler can produce, a `job_id` is
present only when `network_used` and `proof_generated` are both true;
`network_used` implies `proof_generated`; a network attempt that ends in
an ordinary error (including a caught panic) reports
`network_used = false` with no job id; and the local path never sets
`job_id` or `network_used`. -/
theorem response_flag_invariants (b s : Grid) (env : Env) :
    ((validate_sudoku b s env).job_id.isSome = true →
        (validate_sudoku b s env).network_used = true ∧
        (validate_sudoku b s env).proof_generated = true) ∧
    ((validate_sudoku b s env).network_used = true →
        (validate_sudoku b s env).proof_generated = true) ∧
    (∀ e, ((env.sp1Prover.getD "local") == "network") = true →
        generate_network_proof b s env.networkKey env.networkOutcome
          env.now = Except.error e →
        (validate_sudoku b s env).network_used = false ∧
        (validate_sudoku b s env).job_id = none) ∧
    (((env.sp1Prover.getD "local") == "network") = false →
        (validate_sudoku b s env).job_id = none ∧
        (validate_sudoku b s env).network_used = false) := by
  cases hval : verify_sudoku b s
  · simp [validate_sudoku, hval]
  · cases hnet : (env.sp1Prover.getD "local") == "network"
    · cases hl : generate_local_proof b s env.localProveOutcome
          env.localVerifyOutcome <;>
        simp [validate_sudoku, hval, hnet, hl]
    · cases hg : generate_network_proof b s env.networkKey
          env.networkOutcome env.now <;>
        simp [validate_sudoku, hval, hnet, hg]

/-- Witness for C10: the network-success environment yields a response
with `network_used` and `proof_generated` both true. -/
theorem response_flag_invariants_witness :
    (validate_sudoku zeroGrid validSol netSuccessEnv).network_used = true ∧
    (validate_sudoku zeroGrid validSol netSuccessEnv).proof_generated = true :=
  (response_flag_invariants zeroGrid validSol netSuccessEnv).1 (by decide)

end Sudoku
